import Mathlib

/-!
Verification development for the OCI artifact fetch-and-cache layer of
wasmCloud (`crates/core/src/oci.rs`).

The Rust code is effectful: it talks to an OCI registry over the network and
to the local filesystem.  We embed it shallowly as pure Lean functions over a
`FetchEnv` record that supplies the outcome of every external interaction
(reference parsing by the external `oci_distribution` crate, certificate
loading, filesystem probes and reads, manifest-only fetch, full pull, write
success).  Each run returns a `Trace` of the observable effects (number of
manifest-only fetches, number of full content pulls, the transport protocol
and trust store handed to the registry client, and the bytes written to the
cache and digest files) together with the function result.

Machine strings are modelled with Lean `String`; byte buffers with `List Nat`.
The string primitives are defined over `String.data` so that they reduce in
the kernel; they implement exactly the operations the Rust code uses
(`str::to_lowercase`, `str::ends_with`, `str::replace` with a one-character
pattern and one-character replacement).
-/

namespace Oci

/-- Replacement of every occurrence of the character `c` by the character `r`,
modelling Rust `str::replace(c, r)` for a one-character pattern and
one-character replacement string (as used in `prune_filepath`). -/
def replaceChar (c r : Char) (s : String) : String :=
  ⟨s.data.map fun a => if a = c then r else a⟩

/-- Lowercasing of a string, modelling `str::to_lowercase` on the references
the fetcher receives. -/
def strToLower (s : String) : String :=
  ⟨s.data.map Char.toLower⟩

/-- Test that `s` ends with `post`, modelling `str::ends_with`. -/
def strEndsWith (s post : String) : Bool :=
  post.data.isSuffixOf s.data

/-- Modelled from the external `oci-wasm` crate: the manifest media type that
identifies a WASM component artifact (`WASM_MANIFEST_MEDIA_TYPE`).  The
properties below only test string equality against this constant, so its
exact spelling is irrelevant to them. -/
def WASM_MANIFEST_MEDIA_TYPE : String := "application/vnd.wasm.config.v0+json"

/-- Modelled from the external `oci-wasm` crate: the WASM layer media type
(`WASM_LAYER_MEDIA_TYPE`), used only inside the accepted-media-types list. -/
def WASM_LAYER_MEDIA_TYPE : String := "application/wasm"

/-- Media type of a provider archive layer (constant in `oci.rs`). -/
def PROVIDER_ARCHIVE_MEDIA_TYPE : String :=
  "application/vnd.wasmcloud.provider.archive.layer.v1+par"

/-- Media type of a WASM module content layer (constant in `oci.rs`). -/
def WASM_MEDIA_TYPE : String := "application/vnd.module.wasm.content.layer.v1+wasm"

/-- Media type of a generic OCI tar layer (constant in `oci.rs`). -/
def OCI_MEDIA_TYPE : String := "application/vnd.oci.image.layer.v1.tar"

/-- Whether to update the OCI artifact cache (`OciArtifactCacheUpdate`). -/
inductive OciArtifactCacheUpdate
  | Ignore
  | Update
deriving Repr, DecidableEq

/-- Registry credentials, modelling `oci_distribution::secrets::RegistryAuth`.
The fetcher only passes them through to the registry client and never
branches on them. -/
inductive RegistryAuth
  | Anonymous
  | Basic (username password : String)
deriving Repr, DecidableEq

/-- The OCI artifact fetcher configuration (`OciFetcher`).  Filesystem paths
are modelled as strings. -/
structure OciFetcher where
  additional_ca_paths : List String
  allow_latest : Bool
  allow_insecure : Bool
  auth : RegistryAuth
deriving Repr, DecidableEq

/-- The `Default` instance of `OciFetcher`: deny latest tags, require TLS,
anonymous credentials, no extra CAs. -/
def OciFetcher.default : OciFetcher :=
  { additional_ca_paths := []
    allow_latest := false
    allow_insecure := false
    auth := RegistryAuth.Anonymous }

/-- One artifact layer (`oci_distribution::client::ImageLayer`): an opaque
byte buffer. -/
structure ImageLayer where
  data : List Nat
deriving Repr, DecidableEq

/-- The parts of `oci_distribution::manifest::OciImageManifest` the fetcher
inspects: its optional media type. -/
structure OciImageManifest where
  media_type : Option String
deriving Repr, DecidableEq

/-- Result of a full pull (`oci_distribution::client::ImageData`): ordered
layers, an optional manifest digest, and an optional manifest. -/
structure ImageData where
  layers : List ImageLayer
  digest : Option String
  manifest : Option OciImageManifest
deriving Repr, DecidableEq

/-- The two filesystem writes performed by `cache_oci_image`. -/
structure CacheWrites where
  cacheBytes : List Nat
  digestWritten : Option String
deriving Repr, DecidableEq

/-- Pure content of `cache_oci_image`: the cache file receives the
concatenation of the layer buffers in manifest order
(`layers.into_iter().flat_map(|l| l.data).collect()`), and the digest file is
written exactly when `image.digest` is present. -/
def cache_oci_image (image : ImageData) : CacheWrites :=
  { cacheBytes := (image.layers.map ImageLayer.data).flatten
    digestWritten := image.digest }

/-- Filename derivation (`prune_filepath`): replace `:`, then `/`, then `.`
by `_`. -/
def prune_filepath (img : String) : String :=
  let img := replaceChar ':' '_' img
  let img := replaceChar '/' '_' img
  replaceChar '.' '_' img

/-- Path join (`Path::join`).  The joined component is always a pruned
filename, which contains no separator, so the join is plain concatenation
with a separator. -/
def pathJoin (dir name : String) : String := dir ++ "/" ++ name

/-- Appending the `digest` extension (`PathBuf::set_extension("digest")`).
The file name this is applied to is a pruned reference, which contains no
`.`, so `set_extension` appends `.digest`. -/
def withDigestExtension (p : String) : String := p ++ ".digest"

/-- The `(cache_file, digest_file)` pair `fetch_path` derives from the output
directory and a (normalized) reference. -/
def cache_paths (output_dir img : String) : String × String :=
  let pruned := prune_filepath img
  (pathJoin output_dir pruned, withDigestExtension (pathJoin output_dir pruned))

/-- Parsed OCI reference, modelling the part of `oci_distribution::Reference`
the fetcher reads: its registry host. -/
structure ParsedReference where
  registry : String
deriving Repr, DecidableEq

/-- Transport protocol configuration
(`oci_distribution::client::ClientProtocol`). -/
inductive ClientProtocol
  | Https
  | HttpsExcept (hosts : List String)
deriving Repr, DecidableEq

/-- Transport protocol selection of `fetch_path`: with insecure access
allowed, HTTPS with an exception list holding exactly the registry host
parsed from this reference; otherwise unconditional HTTPS. -/
def client_protocol (f : OciFetcher) (ref : ParsedReference) : ClientProtocol :=
  if f.allow_insecure then ClientProtocol.HttpsExcept [ref.registry]
  else ClientProtocol.Https

/-- Error taxonomy of the fetch pipeline.  Each constructor corresponds to
one failure site of `fetch_path`/`fetch_component` in `oci.rs`. -/
inductive FetchError
  | PolicyViolation
  | InvalidReference
  | CertLoadError
  | ManifestFetchError
  | PullError
  | ValidationError
  | CacheIoError
deriving Repr, DecidableEq

/-- Trace of the observable effects of one `fetch_path`/`fetch_component`
run: how many manifest-only fetches and full content pulls were issued, the
transport protocol and extra root certificates the registry client was
configured with (none when the run failed before the client was built), and
the bytes written to the cache file and digest file (none when no write
happened). -/
structure Trace where
  manifestPulls : Nat
  fullPulls : Nat
  protocol : Option ClientProtocol
  certs : Option (List (List Nat))
  cacheWrite : Option (List Nat)
  digestWrite : Option String
deriving Repr, DecidableEq

/-- The empty trace: no effects yet. -/
def Trace.empty : Trace :=
  { manifestPulls := 0
    fullPulls := 0
    protocol := none
    certs := none
    cacheWrite := none
    digestWrite := none }

/-- Environment of one fetch run: the outcome of every interaction with the
world (external parser, filesystem, registry).  `Except Unit` models a
fallible external call whose error detail the fetcher only wraps. -/
structure FetchEnv where
  /-- Result of `Reference::from_str` on the lowercased reference (external
  parser); `none` models a parse error. -/
  parseRef : Option ParsedReference
  /-- Platform native root certificates (`tls::NATIVE_ROOTS_OCI`), one DER
  buffer each. -/
  nativeRoots : List (List Nat)
  /-- Result of `tls::load_certs_from_paths` on `additional_ca_paths`. -/
  certLoad : Except Unit (List (List Nat))
  /-- Whether `fs::metadata(&cache_file)` succeeds, i.e. the cache file
  exists on disk. -/
  cacheFileExists : Bool
  /-- Result of `fs::read_to_string(&digest_file)`; `none` models a missing
  or unreadable digest file. -/
  localDigest : Option String
  /-- Result of the manifest-only fetch `pull_manifest`: the digest string it
  reports. -/
  manifestDigest : Except Unit String
  /-- Result of the full content pull `pull`. -/
  pullResult : Except Unit ImageData
  /-- Whether the filesystem writes inside `cache_oci_image` all succeed. -/
  cacheWriteOk : Bool
  /-- Content `fs::read` returns for the cache file when this run did not
  itself write it (sequential read-after-write filesystem model: a write by
  this run is read back as written; otherwise this pre-existing content is
  returned, `Except.error` modelling a read failure). -/
  preexistingCacheBytes : Except Unit (List Nat)

/-- Trust-store construction of `fetch_path`: the native roots, extended with
every certificate decoded from `additional_ca_paths` when that list is
non-empty; loading failure is fatal. -/
def load_certs (f : OciFetcher) (env : FetchEnv) : Except Unit (List (List Nat)) :=
  if f.additional_ca_paths.isEmpty then Except.ok env.nativeRoots
  else Except.map (fun extra => env.nativeRoots ++ extra) env.certLoad

/-- Validation condition of `fetch_path` on a pulled artifact: the manifest
is present and its media type equals the WASM-component manifest type, and
the artifact has more than one layer. -/
def invalid_wasm_artifact (imgdata : ImageData) : Bool :=
  ((imgdata.manifest.map fun m =>
      m.media_type.getD "" == WASM_MANIFEST_MEDIA_TYPE).getD false)
    && decide (imgdata.layers.length > 1)

/-- The pull-validate-cache tail of `fetch_path`, entered on every cache
miss: issue the full pull, reject a WASM-component manifest with more than
one layer, and update the cache when requested. -/
def fetch_pull (cache : OciArtifactCacheUpdate) (tr : Trace) (cache_file : String)
    (env : FetchEnv) : Trace × Except FetchError String :=
  let tr := { tr with fullPulls := tr.fullPulls + 1 }
  match env.pullResult with
  | Except.error _ => (tr, Except.error FetchError.PullError)
  | Except.ok imgdata =>
    if invalid_wasm_artifact imgdata then
      (tr, Except.error FetchError.ValidationError)
    else
      match cache with
      | OciArtifactCacheUpdate.Update =>
        if env.cacheWriteOk then
          let w := cache_oci_image imgdata
          ({ tr with cacheWrite := some w.cacheBytes, digestWrite := w.digestWritten },
            Except.ok cache_file)
        else (tr, Except.error FetchError.CacheIoError)
      | OciArtifactCacheUpdate.Ignore => (tr, Except.ok cache_file)

/-- Shallow embedding of `OciFetcher::fetch_path`.  The stages follow the
source in order: lowercase the reference; reject `:latest` under policy;
derive the cache paths; parse the reference; fix the transport protocol;
build the trust store; if the cache file exists, fetch the remote manifest
digest, read the local digest (defaulting to empty), and return the cached
path on a digest match; otherwise fall through to the full pull.  The
`digest_file` path itself is derived via `cache_paths`; its content is
supplied by `env.localDigest`. -/
def fetch_path (f : OciFetcher) (output_dir : String) (img : String)
    (accepted_media_types : List String) (cache : OciArtifactCacheUpdate)
    (env : FetchEnv) : Trace × Except FetchError String :=
  let img := strToLower img
  if !f.allow_latest && strEndsWith img ":latest" then
    (Trace.empty, Except.error FetchError.PolicyViolation)
  else
    let cache_file := (cache_paths output_dir img).1
    match env.parseRef with
    | none => (Trace.empty, Except.error FetchError.InvalidReference)
    | some ref =>
      let protocol := client_protocol f ref
      match load_certs f env with
      | Except.error _ => (Trace.empty, Except.error FetchError.CertLoadError)
      | Except.ok certs =>
        let tr0 : Trace :=
          { Trace.empty with protocol := some protocol, certs := some certs }
        if env.cacheFileExists then
          match env.manifestDigest with
          | Except.error _ =>
            ({ tr0 with manifestPulls := 1 }, Except.error FetchError.ManifestFetchError)
          | Except.ok oci_digest =>
            let file_digest := env.localDigest.getD ""
            if !(oci_digest == "") && !(file_digest == "") && file_digest == oci_digest then
              ({ tr0 with manifestPulls := 1 }, Except.ok cache_file)
            else
              fetch_pull cache { tr0 with manifestPulls := 1 } cache_file env
        else
          fetch_pull cache tr0 cache_file env

/-- Default cache directory (`oci_cache_dir`): the `wasmcloud_ocicache`
directory under the platform temporary directory, here a parameter. -/
def oci_cache_dir (temp_dir : String) : String := pathJoin temp_dir "wasmcloud_ocicache"

/-- Shallow embedding of `OciFetcher::fetch_component`: run `fetch_path`
into the cache directory with the component media types and cache update
requested, then read the cache file back (sequential read-after-write
filesystem model). -/
def fetch_component (f : OciFetcher) (temp_dir : String) (oci_ref : String)
    (env : FetchEnv) : Trace × Except FetchError (List Nat) :=
  match fetch_path f (oci_cache_dir temp_dir) oci_ref
      [WASM_MEDIA_TYPE, OCI_MEDIA_TYPE, WASM_LAYER_MEDIA_TYPE]
      OciArtifactCacheUpdate.Update env with
  | (tr, Except.error e) => (tr, Except.error e)
  | (tr, Except.ok _) =>
    match tr.cacheWrite with
    | some bs => (tr, Except.ok bs)
    | none =>
      match env.preexistingCacheBytes with
      | Except.ok bs => (tr, Except.ok bs)
      | Except.error _ => (tr, Except.error FetchError.CacheIoError)

/-- Trace of a run that reached the point where the registry client is
constructed: protocol and trust store recorded, nothing pulled yet. -/
def trClient (f : OciFetcher) (ref : ParsedReference) (cs : List (List Nat)) : Trace :=
  { Trace.empty with protocol := some (client_protocol f ref), certs := some cs }

/-- Concrete environment of a cache-hit run: the cache file exists and the
local digest equals the remote digest (used to witness the hit criterion). -/
def hitEnv : FetchEnv :=
  { parseRef := some { registry := "example.com" }
    nativeRoots := []
    certLoad := Except.ok []
    cacheFileExists := true
    localDigest := some "sha256:abc"
    manifestDigest := Except.ok "sha256:abc"
    pullResult := Except.ok { layers := [], digest := none, manifest := none }
    cacheWriteOk := true
    preexistingCacheBytes := Except.ok [] }

/-- Concrete environment with the cache file present but no readable digest
file (used to witness graceful degradation to a cache miss). -/
def missingDigestEnv : FetchEnv :=
  { parseRef := some { registry := "example.com" }
    nativeRoots := []
    certLoad := Except.ok []
    cacheFileExists := true
    localDigest := none
    manifestDigest := Except.ok "sha256:abc"
    pullResult := Except.ok { layers := [], digest := none, manifest := none }
    cacheWriteOk := true
    preexistingCacheBytes := Except.ok [] }

/-- Concrete fetcher with insecure access allowed (used to witness transport
scoping). -/
def insecureFetcher : OciFetcher :=
  { additional_ca_paths := []
    allow_latest := false
    allow_insecure := true
    auth := RegistryAuth.Anonymous }

/-- Concrete environment whose reference parses to the registry host
`reg.example.com` (used to witness transport scoping). -/
def insecureEnv : FetchEnv :=
  { parseRef := some { registry := "reg.example.com" }
    nativeRoots := []
    certLoad := Except.ok []
    cacheFileExists := false
    localDigest := none
    manifestDigest := Except.ok "sha256:abc"
    pullResult := Except.ok { layers := [], digest := none, manifest := none }
    cacheWriteOk := true
    preexistingCacheBytes := Except.ok [] }

/-- Concrete fetcher with one additional CA path configured (used to witness
trust-store construction). -/
def caFetcher : OciFetcher :=
  { additional_ca_paths := ["/etc/ssl/extra-ca.pem"]
    allow_latest := false
    allow_insecure := false
    auth := RegistryAuth.Anonymous }

/-- Concrete environment in which the additional CA path decodes to one DER
certificate (used to witness trust-store construction). -/
def caEnv : FetchEnv :=
  { parseRef := some { registry := "example.com" }
    nativeRoots := [[0, 1]]
    certLoad := Except.ok [[2, 3]]
    cacheFileExists := false
    localDigest := none
    manifestDigest := Except.ok "sha256:abc"
    pullResult := Except.ok { layers := [], digest := none, manifest := none }
    cacheWriteOk := true
    preexistingCacheBytes := Except.ok [] }

/-- Concrete environment in which loading the additional CA path fails (used
to witness the fatal `CertLoadError`). -/
def caErrEnv : FetchEnv :=
  { parseRef := some { registry := "example.com" }
    nativeRoots := [[0, 1]]
    certLoad := Except.error ()
    cacheFileExists := false
    localDigest := none
    manifestDigest := Except.ok "sha256:abc"
    pullResult := Except.ok { layers := [], digest := none, manifest := none }
    cacheWriteOk := true
    preexistingCacheBytes := Except.ok [] }

/-- Concrete environment pulling a two-layer artifact carrying the WASM
manifest media type (used to witness validation rejection). -/
def multiLayerEnv : FetchEnv :=
  { parseRef := some { registry := "example.com" }
    nativeRoots := []
    certLoad := Except.ok []
    cacheFileExists := false
    localDigest := none
    manifestDigest := Except.ok "sha256:abc"
    pullResult := Except.ok
      { layers := [{ data := [1] }, { data := [2] }]
        digest := some "sha256:abc"
        manifest := some { media_type := some WASM_MANIFEST_MEDIA_TYPE } }
    cacheWriteOk := true
    preexistingCacheBytes := Except.ok [] }

/-- Concrete environment pulling a zero-layer artifact carrying the WASM
manifest media type (used to witness acceptance of few-layer components). -/
def zeroLayerEnv : FetchEnv :=
  { parseRef := some { registry := "example.com" }
    nativeRoots := []
    certLoad := Except.ok []
    cacheFileExists := false
    localDigest := none
    manifestDigest := Except.ok "sha256:abc"
    pullResult := Except.ok
      { layers := []
        digest := some "sha256:abc"
        manifest := some { media_type := some WASM_MANIFEST_MEDIA_TYPE } }
    cacheWriteOk := true
    preexistingCacheBytes := Except.ok [] }

/-- Concrete environment pulling a two-layer generic artifact with a digest
(used to witness the cache round-trip of `fetch_component`). -/
def componentEnv : FetchEnv :=
  { parseRef := some { registry := "example.com" }
    nativeRoots := []
    certLoad := Except.ok []
    cacheFileExists := false
    localDigest := none
    manifestDigest := Except.ok "sha256:abc"
    pullResult := Except.ok
      { layers := [{ data := [1, 2] }, { data := [3] }]
        digest := some "sha256:abc"
        manifest := some { media_type := some OCI_MEDIA_TYPE } }
    cacheWriteOk := true
    preexistingCacheBytes := Except.ok [] }

/-- Concrete environment of a first fetch: no cache file yet; the pull
returns a one-layer artifact with digest `sha256:abc` (used to witness
idempotence). -/
def idemEnv1 : FetchEnv :=
  { parseRef := some { registry := "example.com" }
    nativeRoots := []
    certLoad := Except.ok []
    cacheFileExists := false
    localDigest := none
    manifestDigest := Except.ok "sha256:abc"
    pullResult := Except.ok
      { layers := [{ data := [7] }]
        digest := some "sha256:abc"
        manifest := some { media_type := some OCI_MEDIA_TYPE } }
    cacheWriteOk := true
    preexistingCacheBytes := Except.ok [] }

/-- Concrete environment of the second fetch after `idemEnv1`: the cache and
digest files exist as just written, and the registry still reports digest
`sha256:abc` (used to witness idempotence). -/
def idemEnv2 : FetchEnv :=
  { parseRef := some { registry := "example.com" }
    nativeRoots := []
    certLoad := Except.ok []
    cacheFileExists := true
    localDigest := some "sha256:abc"
    manifestDigest := Except.ok "sha256:abc"
    pullResult := Except.ok
      { layers := [{ data := [7] }]
        digest := some "sha256:abc"
        manifest := some { media_type := some OCI_MEDIA_TYPE } }
    cacheWriteOk := true
    preexistingCacheBytes := Except.ok [7] }

/-!  Helper lemmas shared by the claim theorems below. -/

/-- Helper: shape of `fetch_path` once the latest-tag guard passes, the
reference parses, and the trust store loads. -/
theorem fetch_path_guarded (f : OciFetcher) (dir img : String) (mt : List String)
    (cache : OciArtifactCacheUpdate) (env : FetchEnv) (ref : ParsedReference)
    (cs : List (List Nat))
    (hg : (!f.allow_latest && strEndsWith (strToLower img) ":latest") = false)
    (hp : env.parseRef = some ref)
    (hc : load_certs f env = Except.ok cs) :
    fetch_path f dir img mt cache env =
      if env.cacheFileExists then
        match env.manifestDigest with
        | Except.error _ =>
          ({ trClient f ref cs with manifestPulls := 1 },
            Except.error FetchError.ManifestFetchError)
        | Except.ok d =>
          if !(d == "") && !(env.localDigest.getD "" == "") && env.localDigest.getD "" == d then
            ({ trClient f ref cs with manifestPulls := 1 },
              Except.ok (cache_paths dir (strToLower img)).1)
          else
            fetch_pull cache { trClient f ref cs with manifestPulls := 1 }
              (cache_paths dir (strToLower img)).1 env
      else
        fetch_pull cache (trClient f ref cs) (cache_paths dir (strToLower img)).1 env := by
  simp only [fetch_path, trClient, hg, hp, hc, Bool.false_eq_true, if_false]

/-- Helper: the trace fields of `fetch_pull`: exactly one more full pull
than before, everything not written by the pull unchanged. -/
theorem fetch_pull_trace_fields (cache : OciArtifactCacheUpdate) (tr : Trace)
    (cf : String) (env : FetchEnv) :
    (fetch_pull cache tr cf env).1.fullPulls = tr.fullPulls + 1
    ∧ (fetch_pull cache tr cf env).1.manifestPulls = tr.manifestPulls
    ∧ (fetch_pull cache tr cf env).1.protocol = tr.protocol
    ∧ (fetch_pull cache tr cf env).1.certs = tr.certs := by
  unfold fetch_pull
  cases hpl : env.pullResult with
  | error e => simp
  | ok imgdata =>
    by_cases hv : invalid_wasm_artifact imgdata = true
    · simp [hv]
    · cases cache with
      | Ignore => simp [hv]
      | Update =>
        by_cases hw : env.cacheWriteOk = true
        · simp [hv, hw]
        · simp [hv, hw]

/-- Helper: result of `fetch_pull` on a successful pull of a valid artifact
with cache update requested and a successful write. -/
theorem fetch_pull_update_ok (tr : Trace) (cf : String) (env : FetchEnv)
    (imgdata : ImageData)
    (hpl : env.pullResult = Except.ok imgdata)
    (hval : invalid_wasm_artifact imgdata = false)
    (hw : env.cacheWriteOk = true) :
    fetch_pull OciArtifactCacheUpdate.Update tr cf env =
      ({ tr with fullPulls := tr.fullPulls + 1
                 cacheWrite := some (cache_oci_image imgdata).cacheBytes
                 digestWrite := (cache_oci_image imgdata).digestWritten },
        Except.ok cf) := by
  simp [fetch_pull, hpl, hval, hw]

/-- Helper: result of `fetch_pull` on a pulled artifact that trips the
layer-count validation. -/
theorem fetch_pull_invalid (cache : OciArtifactCacheUpdate) (tr : Trace) (cf : String)
    (env : FetchEnv) (imgdata : ImageData)
    (hpl : env.pullResult = Except.ok imgdata)
    (hv : invalid_wasm_artifact imgdata = true) :
    fetch_pull cache tr cf env
      = ({ tr with fullPulls := tr.fullPulls + 1 },
          Except.error FetchError.ValidationError) := by
  simp [fetch_pull, hpl, hv]

/-- Helper: a reference that is caught by the latest-tag guard is rejected
immediately, with an empty effect trace. -/
theorem fetch_path_latest_blocked (f : OciFetcher) (dir img : String) (mt : List String)
    (cache : OciArtifactCacheUpdate) (env : FetchEnv)
    (hg : (!f.allow_latest && strEndsWith (strToLower img) ":latest") = true) :
    fetch_path f dir img mt cache env =
      (Trace.empty, Except.error FetchError.PolicyViolation) := by
  simp [fetch_path, hg]

/-- Helper: a reference the external parser rejects yields
`InvalidReference`, with an empty effect trace. -/
theorem fetch_path_parse_error (f : OciFetcher) (dir img : String) (mt : List String)
    (cache : OciArtifactCacheUpdate) (env : FetchEnv)
    (hg : (!f.allow_latest && strEndsWith (strToLower img) ":latest") = false)
    (hp : env.parseRef = none) :
    fetch_path f dir img mt cache env =
      (Trace.empty, Except.error FetchError.InvalidReference) := by
  simp [fetch_path, hg, hp]

/-- Helper: a trust-store loading failure yields `CertLoadError`, with an
empty effect trace. -/
theorem fetch_path_cert_error (f : OciFetcher) (dir img : String) (mt : List String)
    (cache : OciArtifactCacheUpdate) (env : FetchEnv) (ref : ParsedReference)
    (hg : (!f.allow_latest && strEndsWith (strToLower img) ":latest") = false)
    (hp : env.parseRef = some ref)
    (hc : load_certs f env = Except.error ()) :
    fetch_path f dir img mt cache env =
      (Trace.empty, Except.error FetchError.CertLoadError) := by
  simp [fetch_path, hg, hp, hc]

/-- Helper: error provenance inside `fetch_pull`: it never produces
`PolicyViolation`, and it produces `ValidationError` only for a successfully
pulled artifact that trips the layer-count check. -/
theorem fetch_pull_error_sources (cache : OciArtifactCacheUpdate) (tr : Trace)
    (cf : String) (env : FetchEnv) :
    ((fetch_pull cache tr cf env).2 = Except.error FetchError.PolicyViolation → False)
    ∧ ((fetch_pull cache tr cf env).2 = Except.error FetchError.ValidationError →
      ∃ imgdata, env.pullResult = Except.ok imgdata ∧ invalid_wasm_artifact imgdata = true) := by
  unfold fetch_pull
  cases hpl : env.pullResult with
  | error e => simp
  | ok imgdata =>
    by_cases hv : invalid_wasm_artifact imgdata = true
    · simp only [hv, if_true]
      exact ⟨by simp, fun _ => ⟨imgdata, rfl, hv⟩⟩
    · cases cache with
      | Ignore => simp [hv]
      | Update => by_cases hw : env.cacheWriteOk = true <;> simp [hv, hw]

/-- Helper: error provenance of a whole `fetch_path` run: `PolicyViolation`
comes only from the latest-tag guard, and `ValidationError` only from the
layer-count check on a successfully pulled artifact. -/
theorem fetch_path_error_sources (f : OciFetcher) (dir img : String) (mt : List String)
    (cache : OciArtifactCacheUpdate) (env : FetchEnv) :
    ((fetch_path f dir img mt cache env).2 = Except.error FetchError.PolicyViolation →
      (!f.allow_latest && strEndsWith (strToLower img) ":latest") = true)
    ∧ ((fetch_path f dir img mt cache env).2 = Except.error FetchError.ValidationError →
      ∃ imgdata, env.pullResult = Except.ok imgdata ∧ invalid_wasm_artifact imgdata = true) := by
  by_cases hg : (!f.allow_latest && strEndsWith (strToLower img) ":latest") = true
  · rw [fetch_path_latest_blocked f dir img mt cache env hg]
    exact ⟨fun _ => hg, fun h => by simp at h⟩
  · rw [Bool.not_eq_true] at hg
    cases hpr : env.parseRef with
    | none =>
      rw [fetch_path_parse_error f dir img mt cache env hg hpr]
      exact ⟨fun h => by simp at h, fun h => by simp at h⟩
    | some ref =>
      cases hc : load_certs f env with
      | error a =>
        cases a
        rw [fetch_path_cert_error f dir img mt cache env ref hg hpr hc]
        exact ⟨fun h => by simp at h, fun h => by simp at h⟩
      | ok cs =>
        rw [fetch_path_guarded f dir img mt cache env ref cs hg hpr hc]
        cases hcf : env.cacheFileExists with
        | false =>
          simp only [if_false, Bool.false_eq_true]
          exact ⟨fun h => absurd h (fun h => (fetch_pull_error_sources cache _ _ env).1 h),
            fun h => (fetch_pull_error_sources cache _ _ env).2 h⟩
        | true =>
          simp only [if_true]
          cases hmd : env.manifestDigest with
          | error e =>
            exact ⟨fun h => by simp at h, fun h => by simp at h⟩
          | ok d =>
            by_cases hh : (!(d == "") && !(env.localDigest.getD "" == "")
                && env.localDigest.getD "" == d) = true
            · simp only [hh, if_true]
              exact ⟨fun h => by simp at h, fun h => by simp at h⟩
            · rw [Bool.not_eq_true] at hh
              simp only [hh, if_false, Bool.false_eq_true]
              exact ⟨fun h => absurd h (fun h => (fetch_pull_error_sources cache _ _ env).1 h),
                fun h => (fetch_pull_error_sources cache _ _ env).2 h⟩

/-- Helper: a run with no readable local digest is indistinguishable from a
run that reads an empty digest string (`unwrap_or_default`). -/
theorem fetch_path_localDigest_none_eq_empty (f : OciFetcher) (dir img : String)
    (mt : List String) (cache : OciArtifactCacheUpdate) (env : FetchEnv)
    (hld : env.localDigest = none) :
    fetch_path f dir img mt cache env
      = fetch_path f dir img mt cache { env with localDigest := some "" } := by
  obtain ⟨pr, nr, cl, cfe, ld, md, plr, cwo, pre⟩ := env
  cases hld
  rfl

/-- Helper: every run that gets past the latest-tag guard, the parse, and
the trust-store load records the selected client protocol and trust store in
its trace, whatever happens afterwards. -/
theorem fetch_path_guarded_trace (f : OciFetcher) (dir img : String) (mt : List String)
    (cache : OciArtifactCacheUpdate) (env : FetchEnv) (ref : ParsedReference)
    (cs : List (List Nat))
    (hg : (!f.allow_latest && strEndsWith (strToLower img) ":latest") = false)
    (hp : env.parseRef = some ref)
    (hc : load_certs f env = Except.ok cs) :
    (fetch_path f dir img mt cache env).1.protocol = some (client_protocol f ref)
    ∧ (fetch_path f dir img mt cache env).1.certs = some cs := by
  rw [fetch_path_guarded f dir img mt cache env ref cs hg hp hc]
  cases hcf : env.cacheFileExists with
  | false =>
    simp only [hcf, Bool.false_eq_true, if_false]
    constructor
    · rw [(fetch_pull_trace_fields cache _ _ env).2.2.1]
      rfl
    · rw [(fetch_pull_trace_fields cache _ _ env).2.2.2]
      rfl
  | true =>
    simp only [hcf, if_true]
    cases hmd : env.manifestDigest with
    | error e => exact ⟨rfl, rfl⟩
    | ok d =>
      by_cases hb : (!(d == "") && !(env.localDigest.getD "" == "")
          && env.localDigest.getD "" == d) = true
      · simp only [hb, if_true]
        exact ⟨rfl, rfl⟩
      · rw [Bool.not_eq_true] at hb
        simp only [hb, Bool.false_eq_true, if_false]
        constructor
        · rw [(fetch_pull_trace_fields cache _ _ env).2.2.1]
          rfl
        · rw [(fetch_pull_trace_fields cache _ _ env).2.2.2]
          rfl

/-!  Claim theorems. -/

/-- C8: the cache filename derivation is a deterministic function of the
reference (equal references yield the equal `(cache_file, digest_file)`
pair), and the two distinct references `"ns/name:tag"` and `"ns.name_tag"`
collide: they map to the same pair. -/
theorem cache_paths_deterministic_with_collision (dir : String) :
    (∀ r₁ r₂ : String, r₁ = r₂ → cache_paths dir r₁ = cache_paths dir r₂)
    ∧ cache_paths dir "ns/name:tag" = cache_paths dir "ns.name_tag"
    ∧ "ns/name:tag" ≠ "ns.name_tag" := by
  have h : prune_filepath "ns/name:tag" = prune_filepath "ns.name_tag" := by decide
  refine ⟨fun r₁ r₂ hr => by rw [hr], ?_, by decide⟩
  simp [cache_paths, h]

/-- Witness for C8 at a concrete cache directory. -/
theorem cache_paths_deterministic_with_collision_witness :
    cache_paths "/tmp" "ns/name:tag" = cache_paths "/tmp" "ns.name_tag"
    ∧ "ns/name:tag" ≠ "ns.name_tag" :=
  ⟨(cache_paths_deterministic_with_collision "/tmp").2.1,
    (cache_paths_deterministic_with_collision "/tmp").2.2⟩

/-- C4: a reference that, after lowercasing, ends in `:latest` is rejected
with `PolicyViolation` under `allow_latest = false`, before any registry
interaction (empty effect trace: zero manifest-only fetches and zero full
pulls); under `allow_latest = true` the same reference is never rejected
with `PolicyViolation`. -/
theorem latest_tag_policy_gate (f : OciFetcher) (dir img : String) (mt : List String)
    (cache : OciArtifactCacheUpdate) (env : FetchEnv)
    (hlatest : strEndsWith (strToLower img) ":latest" = true) :
    (f.allow_latest = false →
      fetch_path f dir img mt cache env =
        (Trace.empty, Except.error FetchError.PolicyViolation)
      ∧ (fetch_path f dir img mt cache env).1.manifestPulls = 0
      ∧ (fetch_path f dir img mt cache env).1.fullPulls = 0)
    ∧ (f.allow_latest = true →
      (fetch_path f dir img mt cache env).2 ≠ Except.error FetchError.PolicyViolation) := by
  constructor
  · intro hal
    have hg : (!f.allow_latest && strEndsWith (strToLower img) ":latest") = true := by
      rw [hal, hlatest]; rfl
    rw [fetch_path_latest_blocked f dir img mt cache env hg]
    exact ⟨rfl, rfl, rfl⟩
  · intro hal h
    have := (fetch_path_error_sources f dir img mt cache env).1 h
    rw [hal] at this
    simp at this

/-- Witness for C4: the end-to-end scenario of the specification, with the
default policy and the reference `registry.example.com/acme/widget:latest`. -/
theorem latest_tag_policy_gate_witness :
    fetch_path OciFetcher.default "/tmp" "registry.example.com/acme/widget:latest" []
        OciArtifactCacheUpdate.Update
        { parseRef := some { registry := "registry.example.com" }
          nativeRoots := []
          certLoad := Except.ok []
          cacheFileExists := false
          localDigest := none
          manifestDigest := Except.ok "sha256:abc"
          pullResult := Except.ok { layers := [], digest := none, manifest := none }
          cacheWriteOk := true
          preexistingCacheBytes := Except.ok [] } =
      (Trace.empty, Except.error FetchError.PolicyViolation) :=
  ((latest_tag_policy_gate OciFetcher.default "/tmp"
      "registry.example.com/acme/widget:latest" [] OciArtifactCacheUpdate.Update
      _ (by decide)).1 rfl).1

/-- C1: with the latest-tag guard passed, the reference parsed, the trust
store built, and the manifest-only fetch reporting digest `d`: when the
cache file exists, the call returns the cached path with zero full pulls
exactly when `d` and the locally stored digest are both non-empty and
equal; in every other case (cache file absent, either digest empty, or
digests unequal) the call issues the full content pull. -/
theorem cache_hit_iff_digests_match (f : OciFetcher) (dir img : String) (mt : List String)
    (cache : OciArtifactCacheUpdate) (env : FetchEnv) (ref : ParsedReference)
    (cs : List (List Nat)) (d : String)
    (hg : (!f.allow_latest && strEndsWith (strToLower img) ":latest") = false)
    (hp : env.parseRef = some ref)
    (hc : load_certs f env = Except.ok cs)
    (hm : env.manifestDigest = Except.ok d) :
    (env.cacheFileExists = true →
      (((fetch_path f dir img mt cache env).1.fullPulls = 0
          ∧ (fetch_path f dir img mt cache env).2
              = Except.ok (cache_paths dir (strToLower img)).1)
        ↔ (d ≠ "" ∧ env.localDigest.getD "" ≠ "" ∧ env.localDigest.getD "" = d)))
    ∧ ((env.cacheFileExists = false ∨ d = "" ∨ env.localDigest.getD "" = ""
          ∨ env.localDigest.getD "" ≠ d)
        → (fetch_path f dir img mt cache env).1.fullPulls = 1) := by
  rw [fetch_path_guarded f dir img mt cache env ref cs hg hp hc]
  have hbiff : (!(d == "") && !(env.localDigest.getD "" == "")
      && env.localDigest.getD "" == d) = true
      ↔ (d ≠ "" ∧ env.localDigest.getD "" ≠ "" ∧ env.localDigest.getD "" = d) := by
    simp [Bool.and_eq_true, Bool.not_eq_true', beq_eq_false_iff_ne, and_assoc]
  cases hcf : env.cacheFileExists with
  | false =>
    simp only [hcf, Bool.false_eq_true, if_false]
    refine ⟨fun h => absurd h (by simp), fun _ => ?_⟩
    rw [(fetch_pull_trace_fields cache _ _ env).1]
    simp [trClient, Trace.empty]
  | true =>
    simp only [hcf, if_true, hm]
    by_cases hb : (!(d == "") && !(env.localDigest.getD "" == "")
        && env.localDigest.getD "" == d) = true
    · simp only [hb, if_true]
      refine ⟨fun _ => ⟨fun _ => hbiff.mp hb, fun _ => ⟨by simp [trClient, Trace.empty], by simp⟩⟩,
        fun hdisj => ?_⟩
      rcases hbiff.mp hb with ⟨h1, h2, h3⟩
      rcases hdisj with h | h | h | h
      · exact absurd h (by simp)
      · exact absurd h h1
      · exact absurd h h2
      · exact absurd h3 h
    · rw [Bool.not_eq_true] at hb
      simp only [hb, Bool.false_eq_true, if_false]
      refine ⟨fun _ => ?_, fun _ => ?_⟩
      · rw [(fetch_pull_trace_fields cache _ _ env).1]
        constructor
        · intro hco
          exact absurd hco.1 (by simp [trClient, Trace.empty])
        · intro hrhs
          exact absurd (hbiff.mpr hrhs) (by simp [hb])
      · rw [(fetch_pull_trace_fields cache _ _ env).1]
        simp [trClient, Trace.empty]

/-- Witness for C1: a concrete cache-hit run returns the cached path with
zero full pulls. -/
theorem cache_hit_iff_digests_match_witness :
    (fetch_path OciFetcher.default "/tmp" "example.com/foo:v1" []
        OciArtifactCacheUpdate.Ignore hitEnv).1.fullPulls = 0
    ∧ (fetch_path OciFetcher.default "/tmp" "example.com/foo:v1" []
        OciArtifactCacheUpdate.Ignore hitEnv).2
      = Except.ok (cache_paths "/tmp" (strToLower "example.com/foo:v1")).1 :=
  ((cache_hit_iff_digests_match OciFetcher.default "/tmp" "example.com/foo:v1" []
      OciArtifactCacheUpdate.Ignore hitEnv { registry := "example.com" } []
      "sha256:abc" (by decide) rfl rfl rfl).1 rfl).mpr
    (by refine ⟨by decide, by decide, rfl⟩)

/-- C7: a missing or unreadable local digest file is never fatal during the
cache-hit check: the run is identical to one that reads an empty digest
string, and (past the guards, with the cache file present and the manifest
fetch succeeding) it falls through to the full content pull instead of
returning an error. -/
theorem missing_digest_never_fatal (f : OciFetcher) (dir img : String) (mt : List String)
    (cache : OciArtifactCacheUpdate) (env : FetchEnv) (ref : ParsedReference)
    (cs : List (List Nat)) (d : String)
    (hld : env.localDigest = none)
    (hg : (!f.allow_latest && strEndsWith (strToLower img) ":latest") = false)
    (hp : env.parseRef = some ref)
    (hc : load_certs f env = Except.ok cs)
    (hm : env.manifestDigest = Except.ok d)
    (hcf : env.cacheFileExists = true) :
    fetch_path f dir img mt cache env
      = fetch_path f dir img mt cache { env with localDigest := some "" }
    ∧ (fetch_path f dir img mt cache env).1.fullPulls = 1 := by
  refine ⟨fetch_path_localDigest_none_eq_empty f dir img mt cache env hld, ?_⟩
  rw [fetch_path_guarded f dir img mt cache env ref cs hg hp hc]
  simp only [hcf, if_true, hm, hld, Option.getD_none]
  have hfalse : (!(d == "") && !(("" : String) == "") && ("" : String) == d) = false := by
    simp
  rw [hfalse]
  simp only [Bool.false_eq_true, if_false]
  rw [(fetch_pull_trace_fields cache _ _ env).1]
  simp [trClient, Trace.empty]

/-- Witness for C7: a concrete run with an unreadable digest file behaves
like one that read the empty string, and issues one full pull. -/
theorem missing_digest_never_fatal_witness :
    fetch_path OciFetcher.default "/tmp" "example.com/foo:v1" []
        OciArtifactCacheUpdate.Ignore missingDigestEnv
      = fetch_path OciFetcher.default "/tmp" "example.com/foo:v1" []
          OciArtifactCacheUpdate.Ignore { missingDigestEnv with localDigest := some "" }
    ∧ (fetch_path OciFetcher.default "/tmp" "example.com/foo:v1" []
        OciArtifactCacheUpdate.Ignore missingDigestEnv).1.fullPulls = 1 :=
  missing_digest_never_fatal OciFetcher.default "/tmp" "example.com/foo:v1" []
    OciArtifactCacheUpdate.Ignore missingDigestEnv { registry := "example.com" } []
    "sha256:abc" rfl (by decide) rfl rfl rfl rfl

/-- C5: whenever a run configures a transport protocol, that protocol is
HTTPS-with-exceptions for exactly the one registry host parsed from this
run's own reference when `allow_insecure` is set, and unconditional HTTPS
otherwise; hence no host other than the parsed one is ever on the exception
list. -/
theorem transport_protocol_scoped (f : OciFetcher) (dir img : String) (mt : List String)
    (cache : OciArtifactCacheUpdate) (env : FetchEnv) (ref : ParsedReference)
    (p : ClientProtocol)
    (hp : env.parseRef = some ref)
    (hpr : (fetch_path f dir img mt cache env).1.protocol = some p) :
    (f.allow_insecure = true → p = ClientProtocol.HttpsExcept [ref.registry])
    ∧ (f.allow_insecure = false → p = ClientProtocol.Https)
    ∧ (∀ hst hosts, p = ClientProtocol.HttpsExcept hosts → hst ≠ ref.registry →
        hst ∉ hosts) := by
  have hpc : p = client_protocol f ref := by
    by_cases hg : (!f.allow_latest && strEndsWith (strToLower img) ":latest") = true
    · rw [fetch_path_latest_blocked f dir img mt cache env hg] at hpr
      exact absurd hpr (by simp [Trace.empty])
    · rw [Bool.not_eq_true] at hg
      cases hc : load_certs f env with
      | error a =>
        cases a
        rw [fetch_path_cert_error f dir img mt cache env ref hg hp hc] at hpr
        exact absurd hpr (by simp [Trace.empty])
      | ok cs =>
        have := (fetch_path_guarded_trace f dir img mt cache env ref cs hg hp hc).1
        rw [hpr] at this
        exact Option.some_injective _ this
  subst hpc
  refine ⟨fun hi => ?_, fun hi => ?_, ?_⟩
  · simp [client_protocol, hi]
  · simp [client_protocol, hi]
  · intro hst hosts heq hne
    by_cases hi : f.allow_insecure = true
    · simp only [client_protocol, hi, if_true] at heq
      cases heq
      simp [hne]
    · rw [Bool.not_eq_true] at hi
      simp only [client_protocol, hi, Bool.false_eq_true, if_false] at heq
      cases heq

/-- Witness for C5: with insecure access allowed, a concrete run configures
HTTPS with exactly the parsed registry host excepted, and a different host
is not on the exception list. -/
theorem transport_protocol_scoped_witness :
    (fetch_path insecureFetcher "/tmp" "reg.example.com/a:v1" []
        OciArtifactCacheUpdate.Ignore insecureEnv).1.protocol
      = some (ClientProtocol.HttpsExcept ["reg.example.com"])
    ∧ ("other.example.com" : String) ∉ (["reg.example.com"] : List String) :=
  ⟨rfl,
    (transport_protocol_scoped insecureFetcher "/tmp" "reg.example.com/a:v1" []
        OciArtifactCacheUpdate.Ignore insecureEnv { registry := "reg.example.com" }
        (ClientProtocol.HttpsExcept ["reg.example.com"]) rfl rfl).2.2
      "other.example.com" ["reg.example.com"] rfl (by decide)⟩

/-- C9: with additional CA paths configured, a loading or decoding failure
is fatal (`CertLoadError`, nothing pulled), and on success the configured
trust store is exactly the native root bundle extended with every decoded
certificate. -/
theorem additional_ca_trust_store (f : OciFetcher) (dir img : String) (mt : List String)
    (cache : OciArtifactCacheUpdate) (env : FetchEnv) (ref : ParsedReference)
    (extra : List (List Nat))
    (hg : (!f.allow_latest && strEndsWith (strToLower img) ":latest") = false)
    (hp : env.parseRef = some ref)
    (hne : f.additional_ca_paths ≠ []) :
    (env.certLoad = Except.error () →
      fetch_path f dir img mt cache env
        = (Trace.empty, Except.error FetchError.CertLoadError))
    ∧ (env.certLoad = Except.ok extra →
      (fetch_path f dir img mt cache env).1.certs = some (env.nativeRoots ++ extra)) := by
  have hid : f.additional_ca_paths.isEmpty = false := by
    cases hpaths : f.additional_ca_paths with
    | nil => exact absurd hpaths hne
    | cons a l => rfl
  constructor
  · intro hcl
    have hc : load_certs f env = Except.error () := by
      simp [load_certs, hid, hcl, Except.map]
    exact fetch_path_cert_error f dir img mt cache env ref hg hp hc
  · intro hcl
    have hc : load_certs f env = Except.ok (env.nativeRoots ++ extra) := by
      simp [load_certs, hid, hcl, Except.map]
    exact (fetch_path_guarded_trace f dir img mt cache env ref _ hg hp hc).2

/-- Witness for C9: a concrete failing CA load is fatal, and a concrete
successful one yields the native roots extended by the decoded
certificate. -/
theorem additional_ca_trust_store_witness :
    fetch_path caFetcher "/tmp" "example.com/foo:v1" [] OciArtifactCacheUpdate.Ignore caErrEnv
      = (Trace.empty, Except.error FetchError.CertLoadError)
    ∧ (fetch_path caFetcher "/tmp" "example.com/foo:v1" []
        OciArtifactCacheUpdate.Ignore caEnv).1.certs = some [[0, 1], [2, 3]] :=
  ⟨(additional_ca_trust_store caFetcher "/tmp" "example.com/foo:v1" []
      OciArtifactCacheUpdate.Ignore caErrEnv { registry := "example.com" } []
      (by decide) rfl (by decide)).1 rfl,
    (additional_ca_trust_store caFetcher "/tmp" "example.com/foo:v1" []
      OciArtifactCacheUpdate.Ignore caEnv { registry := "example.com" } [[2, 3]]
      (by decide) rfl (by decide)).2 rfl⟩

/-- C3: a pulled artifact whose manifest media type is the WASM-component
manifest type and which has two or more layers makes `fetch_path` fail with
`ValidationError`, whatever the layer contents; a pulled artifact whose
manifest media type is any other value, or whose manifest is absent, never
produces a `ValidationError`. -/
theorem wasm_multi_layer_rejected (f : OciFetcher) (dir img : String) (mt : List String)
    (cache : OciArtifactCacheUpdate) (env : FetchEnv) (ref : ParsedReference)
    (cs : List (List Nat)) (imgdata : ImageData) (m : OciImageManifest)
    (hg : (!f.allow_latest && strEndsWith (strToLower img) ":latest") = false)
    (hp : env.parseRef = some ref)
    (hc : load_certs f env = Except.ok cs)
    (hcf : env.cacheFileExists = false)
    (hpl : env.pullResult = Except.ok imgdata) :
    (imgdata.manifest = some m → m.media_type.getD "" = WASM_MANIFEST_MEDIA_TYPE →
      2 ≤ imgdata.layers.length →
      (fetch_path f dir img mt cache env).2 = Except.error FetchError.ValidationError)
    ∧ ((imgdata.manifest.map fun mm =>
          mm.media_type.getD "" == WASM_MANIFEST_MEDIA_TYPE).getD false = false →
      (fetch_path f dir img mt cache env).2 ≠ Except.error FetchError.ValidationError) := by
  constructor
  · intro hman hmt hlen
    have hv : invalid_wasm_artifact imgdata = true := by
      have hgt : imgdata.layers.length > 1 := hlen
      simp [invalid_wasm_artifact, hman, hmt, hgt]
    rw [fetch_path_guarded f dir img mt cache env ref cs hg hp hc]
    simp only [hcf, Bool.false_eq_true, if_false]
    rw [fetch_pull_invalid cache _ _ env imgdata hpl hv]
  · intro hnw h
    obtain ⟨img2, hpl2, hv2⟩ := (fetch_path_error_sources f dir img mt cache env).2 h
    rw [hpl] at hpl2
    cases hpl2
    simp only [invalid_wasm_artifact, hnw, Bool.false_and] at hv2
    exact Bool.false_ne_true hv2

/-- Witness for C3: a concrete two-layer WASM-component artifact is rejected
with `ValidationError`. -/
theorem wasm_multi_layer_rejected_witness :
    (fetch_path OciFetcher.default "/tmp" "example.com/foo:v1" []
        OciArtifactCacheUpdate.Update multiLayerEnv).2
      = Except.error FetchError.ValidationError :=
  (wasm_multi_layer_rejected OciFetcher.default "/tmp" "example.com/foo:v1" []
      OciArtifactCacheUpdate.Update multiLayerEnv { registry := "example.com" } []
      { layers := [{ data := [1] }, { data := [2] }]
        digest := some "sha256:abc"
        manifest := some { media_type := some WASM_MANIFEST_MEDIA_TYPE } }
      { media_type := some WASM_MANIFEST_MEDIA_TYPE }
      (by decide) rfl rfl rfl rfl).1 rfl rfl (by decide)

/-- C10: a pulled artifact carrying the WASM-component manifest media type
with zero or one layers passes validation and the call succeeds; with cache
update requested, a zero-layer artifact produces an empty cache-file
write. -/
theorem wasm_component_few_layers_accepted (f : OciFetcher) (dir img : String)
    (mt : List String) (env : FetchEnv) (ref : ParsedReference)
    (cs : List (List Nat)) (imgdata : ImageData) (m : OciImageManifest)
    (hg : (!f.allow_latest && strEndsWith (strToLower img) ":latest") = false)
    (hp : env.parseRef = some ref)
    (hc : load_certs f env = Except.ok cs)
    (hcf : env.cacheFileExists = false)
    (hpl : env.pullResult = Except.ok imgdata)
    (hman : imgdata.manifest = some m)
    (hmt : m.media_type.getD "" = WASM_MANIFEST_MEDIA_TYPE)
    (hlen : imgdata.layers.length ≤ 1)
    (hw : env.cacheWriteOk = true) :
    (fetch_path f dir img mt OciArtifactCacheUpdate.Update env).2
      = Except.ok (cache_paths dir (strToLower img)).1
    ∧ (imgdata.layers = [] →
      (fetch_path f dir img mt OciArtifactCacheUpdate.Update env).1.cacheWrite
        = some []) := by
  have hnot : ¬ (imgdata.layers.length > 1) := by omega
  have hv : invalid_wasm_artifact imgdata = false := by
    simp [invalid_wasm_artifact, hnot]
  rw [fetch_path_guarded f dir img mt OciArtifactCacheUpdate.Update env ref cs hg hp hc]
  simp only [hcf, Bool.false_eq_true, if_false]
  rw [fetch_pull_update_ok (trClient f ref cs) _ env imgdata hpl hv hw]
  refine ⟨rfl, fun h0 => ?_⟩
  simp [cache_oci_image, h0]

/-- Witness for C10: a concrete zero-layer WASM-component artifact is
accepted and caching it writes the empty byte sequence. -/
theorem wasm_component_few_layers_accepted_witness :
    (fetch_path OciFetcher.default "/tmp" "example.com/foo:v1" []
        OciArtifactCacheUpdate.Update zeroLayerEnv).2
      = Except.ok (cache_paths "/tmp" (strToLower "example.com/foo:v1")).1
    ∧ (fetch_path OciFetcher.default "/tmp" "example.com/foo:v1" []
        OciArtifactCacheUpdate.Update zeroLayerEnv).1.cacheWrite = some [] := by
  have h := wasm_component_few_layers_accepted OciFetcher.default "/tmp"
    "example.com/foo:v1" [] zeroLayerEnv { registry := "example.com" } []
    { layers := []
      digest := some "sha256:abc"
      manifest := some { media_type := some WASM_MANIFEST_MEDIA_TYPE } }
    { media_type := some WASM_MANIFEST_MEDIA_TYPE }
    (by decide) rfl rfl rfl rfl rfl rfl (by decide) rfl
  exact ⟨h.1, h.2 rfl⟩

/-- C2: after a successful fetch with cache update requested (no cache hit,
pull succeeded, artifact valid, writes succeeded), the bytes written to the
cache file are the concatenation of the pulled layer buffers in manifest
order, the digest file is written exactly when the pulled manifest carries a
digest, and `fetch_component` returns exactly the concatenated bytes read
back from the cache file. -/
theorem fetch_component_roundtrip (f : OciFetcher) (temp_dir oci_ref : String)
    (env : FetchEnv) (ref : ParsedReference) (cs : List (List Nat)) (imgdata : ImageData)
    (hg : (!f.allow_latest && strEndsWith (strToLower oci_ref) ":latest") = false)
    (hp : env.parseRef = some ref)
    (hc : load_certs f env = Except.ok cs)
    (hcf : env.cacheFileExists = false)
    (hpl : env.pullResult = Except.ok imgdata)
    (hval : invalid_wasm_artifact imgdata = false)
    (hw : env.cacheWriteOk = true) :
    (fetch_component f temp_dir oci_ref env).1.cacheWrite
      = some ((imgdata.layers.map ImageLayer.data).flatten)
    ∧ (fetch_component f temp_dir oci_ref env).1.digestWrite = imgdata.digest
    ∧ (fetch_component f temp_dir oci_ref env).2
      = Except.ok ((imgdata.layers.map ImageLayer.data).flatten) := by
  unfold fetch_component
  rw [fetch_path_guarded f (oci_cache_dir temp_dir) oci_ref
      [WASM_MEDIA_TYPE, OCI_MEDIA_TYPE, WASM_LAYER_MEDIA_TYPE]
      OciArtifactCacheUpdate.Update env ref cs hg hp hc]
  simp only [hcf, Bool.false_eq_true, if_false]
  rw [fetch_pull_update_ok (trClient f ref cs) _ env imgdata hpl hval hw]
  simp [cache_oci_image]

/-- Witness for C2: the concrete two-layer artifact `[[1, 2], [3]]` is
cached and returned as the concatenation `[1, 2, 3]`, and its digest is
written. -/
theorem fetch_component_roundtrip_witness :
    (fetch_component OciFetcher.default "/tmp" "example.com/foo:v1" componentEnv).1.cacheWrite
      = some [1, 2, 3]
    ∧ (fetch_component OciFetcher.default "/tmp" "example.com/foo:v1"
        componentEnv).1.digestWrite = some "sha256:abc"
    ∧ (fetch_component OciFetcher.default "/tmp" "example.com/foo:v1" componentEnv).2
      = Except.ok [1, 2, 3] :=
  fetch_component_roundtrip OciFetcher.default "/tmp" "example.com/foo:v1"
    componentEnv { registry := "example.com" } []
    { layers := [{ data := [1, 2] }, { data := [3] }]
      digest := some "sha256:abc"
      manifest := some { media_type := some OCI_MEDIA_TYPE } }
    (by decide) rfl rfl rfl rfl (by decide) rfl

/-- C6: idempotence on an unchanged digest: a first fetch with cache update
succeeds (miss, pull, successful write of a non-empty digest `d`); a second
fetch with identical inputs, seeing the cache file present, the digest file
holding exactly what the first call wrote, and the registry still reporting
`d`, performs zero full pulls and exactly one manifest-only fetch, and
returns the same cached path as the first call. -/
theorem second_fetch_idempotent (f : OciFetcher) (dir img : String) (mt : List String)
    (env1 env2 : FetchEnv) (ref : ParsedReference) (cs1 cs2 : List (List Nat))
    (imgdata : ImageData) (d : String)
    (hg : (!f.allow_latest && strEndsWith (strToLower img) ":latest") = false)
    (hp1 : env1.parseRef = some ref)
    (hc1 : load_certs f env1 = Except.ok cs1)
    (hcf1 : env1.cacheFileExists = false)
    (hpl1 : env1.pullResult = Except.ok imgdata)
    (hval : invalid_wasm_artifact imgdata = false)
    (hw1 : env1.cacheWriteOk = true)
    (hdig : imgdata.digest = some d)
    (hd : d ≠ "")
    (hp2 : env2.parseRef = some ref)
    (hc2 : load_certs f env2 = Except.ok cs2)
    (hcf2 : env2.cacheFileExists = true)
    (hld2 : env2.localDigest
      = (fetch_path f dir img mt OciArtifactCacheUpdate.Update env1).1.digestWrite)
    (hm2 : env2.manifestDigest = Except.ok d) :
    (fetch_path f dir img mt OciArtifactCacheUpdate.Update env1).2
      = Except.ok (cache_paths dir (strToLower img)).1
    ∧ (fetch_path f dir img mt OciArtifactCacheUpdate.Update env2).1.fullPulls = 0
    ∧ (fetch_path f dir img mt OciArtifactCacheUpdate.Update env2).1.manifestPulls = 1
    ∧ (fetch_path f dir img mt OciArtifactCacheUpdate.Update env2).2
      = (fetch_path f dir img mt OciArtifactCacheUpdate.Update env1).2 := by
  have h1 : fetch_path f dir img mt OciArtifactCacheUpdate.Update env1
      = ({ trClient f ref cs1 with
            fullPulls := (trClient f ref cs1).fullPulls + 1
            cacheWrite := some (cache_oci_image imgdata).cacheBytes
            digestWrite := (cache_oci_image imgdata).digestWritten },
          Except.ok (cache_paths dir (strToLower img)).1) := by
    rw [fetch_path_guarded f dir img mt OciArtifactCacheUpdate.Update env1 ref cs1 hg hp1 hc1]
    simp only [hcf1, Bool.false_eq_true, if_false]
    exact fetch_pull_update_ok (trClient f ref cs1) _ env1 imgdata hpl1 hval hw1
  have hld2s : env2.localDigest = some d := by
    rw [hld2, h1]
    simp [cache_oci_image, hdig]
  have h2 : fetch_path f dir img mt OciArtifactCacheUpdate.Update env2
      = ({ trClient f ref cs2 with manifestPulls := 1 },
          Except.ok (cache_paths dir (strToLower img)).1) := by
    rw [fetch_path_guarded f dir img mt OciArtifactCacheUpdate.Update env2 ref cs2 hg hp2 hc2]
    simp only [hcf2, if_true, hm2, hld2s, Option.getD_some]
    have hbt : (!(d == "") && !(d == "") && d == d) = true := by
      simp [hd]
    rw [hbt]
    simp
  refine ⟨by rw [h1], by rw [h2]; try rfl, by rw [h2]; try rfl, by rw [h1, h2]⟩

/-- Witness for C6: the concrete first and second fetches of the
specification scenario: the second run issues one manifest-only fetch, no
full pull, and returns the first run's path. -/
theorem second_fetch_idempotent_witness :
    (fetch_path OciFetcher.default "/tmp" "example.com/foo:v1" []
        OciArtifactCacheUpdate.Update idemEnv1).2
      = Except.ok (cache_paths "/tmp" (strToLower "example.com/foo:v1")).1
    ∧ (fetch_path OciFetcher.default "/tmp" "example.com/foo:v1" []
        OciArtifactCacheUpdate.Update idemEnv2).1.fullPulls = 0
    ∧ (fetch_path OciFetcher.default "/tmp" "example.com/foo:v1" []
        OciArtifactCacheUpdate.Update idemEnv2).1.manifestPulls = 1
    ∧ (fetch_path OciFetcher.default "/tmp" "example.com/foo:v1" []
        OciArtifactCacheUpdate.Update idemEnv2).2
      = (fetch_path OciFetcher.default "/tmp" "example.com/foo:v1" []
          OciArtifactCacheUpdate.Update idemEnv1).2 :=
  second_fetch_idempotent OciFetcher.default "/tmp" "example.com/foo:v1" []
    idemEnv1 idemEnv2 { registry := "example.com" } [] []
    { layers := [{ data := [7] }]
      digest := some "sha256:abc"
      manifest := some { media_type := some OCI_MEDIA_TYPE } }
    "sha256:abc"
    (by decide) rfl rfl rfl rfl (by decide) rfl rfl (by decide) rfl rfl rfl rfl rfl

end Oci
